import Mathlib

/-!
Shallow embedding of the Book Finder application (src/src/App.jsx).

The app is a single React component.  We embed its pure logic:

* `toBookKey`, `buildCoverUrl` — key derivation and cover URL (App.jsx 5-18);
* the save-set as an association list of `SavedEntry` keyed by strings,
  with `toggleSave` (App.jsx 81-97);
* the `useLocalStorage` initializer (App.jsx 20-35), with the browser
  storage read and `JSON.parse` modelled as explicit `JSResult` values
  (a JS computation either returns a value or throws);
* the sort transform `sortedDocs` (App.jsx 101-115); JS `Array.prototype.sort`
  is stable (ES2019), embedded as `List.mergeSort` with the boolean order
  `le a b := comparator a b ≤ 0`; `localeCompare` is an external primitive
  and is a parameter;
* the paginator `totalPages` / `gotoPage` (App.jsx 117-124);
* `searchBooks` (App.jsx 51-73) as a state transition parametrised by the
  fetch outcome, returning the new state together with the query parameters
  of the request it issues (or `none` when no request is issued).

JS truthiness is modelled explicitly: an absent (`undefined`/`null`) field is
`Option.none`; `x || y` on a string treats `""` as falsy, on a number treats
`0` as falsy.
-/

namespace BookFinder

/-- Fixed page size (App.jsx line 3: `const LIMIT = 20`). -/
def LIMIT : Nat := 20

/-- JS `String.prototype.trim()`: drop leading and trailing whitespace.
Modelled structurally over the string's characters so that it is kernel
evaluable. -/
def jsTrim (s : String) : String :=
  ⟨((s.data.dropWhile Char.isWhitespace).reverse.dropWhile Char.isWhitespace).reverse⟩

/-- One bibliographic record from the search API, with the fields App.jsx
reads.  Absent fields are `none`. -/
structure Doc where
  key : Option String
  cover_edition_key : Option String
  title : Option String
  author_name : Option (List String)
  first_publish_year : Option Int
  cover_i : Option Int
  deriving Repr, DecidableEq

/-- JS truthiness for a possibly-absent string: `undefined`, `null` and `""`
are falsy.  Returns the value when truthy. -/
def strTruthy : Option String → Option String
  | none => none
  | some s => if s = "" then none else some s

/-- JS truthiness for a possibly-absent number: `undefined`, `null` and `0`
are falsy.  Returns the value when truthy. -/
def intTruthy : Option Int → Option Int
  | none => none
  | some n => if n = 0 then none else some n

/-- JS template interpolation of a possibly-undefined string:
`${undefined}` renders as `"undefined"`. -/
def jsTemplate : Option String → String
  | none => "undefined"
  | some s => s

/-- Embedding of `${doc.first_publish_year || ""}`: an absent or zero year
renders as the empty string, otherwise as the decimal numeral. -/
def yearTemplate : Option Int → String
  | none => ""
  | some n => if n = 0 then "" else toString n

/-- App.jsx 12-18: `doc.key || doc.cover_edition_key ||
`${doc.title}-${doc.first_publish_year || ""}``. -/
def toBookKey (d : Doc) : String :=
  match strTruthy d.key with
  | some k => k
  | none =>
    match strTruthy d.cover_edition_key with
    | some k => k
    | none => jsTemplate d.title ++ "-" ++ yearTemplate d.first_publish_year

/-- App.jsx 5-10: cover URL from `doc.cover_i` when truthy, else `null`. -/
def buildCoverUrl (d : Doc) (size : String) : Option String :=
  match intTruthy d.cover_i with
  | some n => some ("https://covers.openlibrary.org/b/id/" ++ toString n ++ "-" ++ size ++ ".jpg")
  | none => none

/-- One saved entry, as built by `toggleSave` (App.jsx 87-94). -/
structure SavedEntry where
  key : String
  title : Option String
  author : String
  year : Option Int
  cover : Option String
  work : Option String
  deriving Repr, DecidableEq

/-- Embedding of `(doc.author_name && doc.author_name[0]) || "Unknown"`. -/
def firstAuthor : Option (List String) → String
  | none => "Unknown"
  | some l =>
    match l.head? with
    | none => "Unknown"
    | some s => if s = "" then "Unknown" else s

/-- The entry inserted by `toggleSave` (App.jsx 87-94). -/
def mkSavedEntry (d : Doc) : SavedEntry where
  key := toBookKey d
  title := d.title
  author := firstAuthor d.author_name
  year := intTruthy d.first_publish_year
  cover := buildCoverUrl d "M"
  work := strTruthy d.key

/-- The save-set: a JS object keyed by strings, as an association list in
insertion order (JS objects preserve insertion order of string keys). -/
abbrev SaveSet := List (String × SavedEntry)

/-- Property access `obj[k]` on an association list. -/
def lookupAssoc {β : Type} (k : String) : List (String × β) → Option β
  | [] => none
  | (k', v) :: t => if k' = k then some v else lookupAssoc k t

/-- JS `delete obj[k]`: remove the binding of `k`. -/
def eraseKey (k : String) : SaveSet → SaveSet
  | [] => []
  | (k', v) :: t => if k' = k then eraseKey k t else (k', v) :: eraseKey k t

/-- App.jsx 81-97: `toggleSave(doc)` over the previous save-set.  If the
doc's key is bound, delete it; otherwise insert a fresh entry built from the
doc (JS adds a new string key at the end of the object's insertion order). -/
def toggleSave (d : Doc) (prev : SaveSet) : SaveSet :=
  let k := toBookKey d
  match lookupAssoc k prev with
  | some _ => eraseKey k prev
  | none => prev ++ [(k, mkSavedEntry d)]

/-- Result of a JS computation: a value, or a thrown exception. -/
inductive JSResult (α : Type) where
  | ok (v : α)
  | thrown
  deriving Repr, DecidableEq

/-- The initial value passed to `useLocalStorage("bf_saved", {})`
(App.jsx line 47): the empty mapping. -/
def emptySave : SaveSet := []

/-- App.jsx 21-28, the `useState` initializer of `useLocalStorage`:
`try { const raw = localStorage.getItem(key); return raw ? JSON.parse(raw) :
initial; } catch { return initial; }`.  `getItem` yields `none` for an
absent slot and may throw; `jsonParse` models `JSON.parse` and may throw;
either throw is caught and yields `initial`. -/
def useLocalStorageInit (getItem : JSResult (Option String))
    (jsonParse : String → JSResult SaveSet) (initial : SaveSet) : SaveSet :=
  match getItem with
  | .thrown => initial
  | .ok none => initial
  | .ok (some raw) =>
    if raw = "" then initial
    else
      match jsonParse raw with
      | .thrown => initial
      | .ok v => v

/-- Loading the save-set at startup (App.jsx line 47): the initializer with
the empty mapping as `initial`. -/
def loadSaved (getItem : JSResult (Option String))
    (jsonParse : String → JSResult SaveSet) : SaveSet :=
  useLocalStorageInit getItem jsonParse emptySave

/-- The sort dropdown values (App.jsx 189-192). -/
inductive SortOrder where
  | relevance
  | year_desc
  | year_asc
  | title_asc
  deriving Repr, DecidableEq

/-- Embedding of `(d.first_publish_year || 0)` used by the year comparators. -/
def yearKey (d : Doc) : Int := (intTruthy d.first_publish_year).getD 0

/-- Embedding of `(d.title || "")` used by the title comparator. -/
def titleKey (d : Doc) : String := (strTruthy d.title).getD ""

/-- App.jsx 101-115, `sortedDocs`: copy `docs` and sort by the selected
comparator; `relevance` applies no sort.  JS `Array.prototype.sort` with a
comparator `c` is a stable sort placing `a` no later than `b` when
`c a b ≤ 0`, embedded as the stable `List.mergeSort` with the boolean order
`le a b := c a b ≤ 0`.  The numeric comparators are
`(b.first_publish_year || 0) - (a.first_publish_year || 0)` (year_desc),
its mirror (year_asc), and
`(a.title || "").localeCompare(b.title || "")` (title_asc), where
`localeCompare` is the external primitive `lc`. -/
def sortedDocs (lc : String → String → Int) (sort : SortOrder) (docs : List Doc) : List Doc :=
  match sort with
  | .relevance => docs
  | .year_desc => docs.mergeSort (fun a b => decide (yearKey b - yearKey a ≤ 0))
  | .year_asc => docs.mergeSort (fun a b => decide (yearKey a - yearKey b ≤ 0))
  | .title_asc => docs.mergeSort (fun a b => decide (lc (titleKey a) (titleKey b) ≤ 0))

/-- App.jsx line 117: `Math.max(1, Math.ceil(numFound / LIMIT))`.  The
ceiling of the exact division `numFound / LIMIT` is the integer
ceiling-division `(numFound + LIMIT - 1) / LIMIT`; the equation with the
ceiling of the rational quotient is proved in `totalPages_eq_ceil` below. -/
def totalPages (numFound : Nat) : Nat := max 1 ((numFound + (LIMIT - 1)) / LIMIT)

/-- App.jsx 119-124, the clamp in `gotoPage`:
`Math.min(Math.max(1, p), totalPages)`; the clamped value becomes the new
current page and the page of the re-issued search. -/
def gotoPage (p : Int) (numFound : Nat) : Int :=
  min (max 1 p) (totalPages numFound : Int)

/-- The JSON body of a search response, with the two fields App.jsx reads
(`data.docs`, `data.numFound`); either may be absent. -/
structure SearchData where
  docs : Option (List Doc)
  numFound : Option Int
  deriving Repr, DecidableEq

/-- Outcome of `fetch` + `res.json()`: the fetch may reject (network error),
or yield a response with an HTTP status whose body either parses to a
`SearchData` or throws. -/
inductive FetchOutcome where
  | networkError
  | response (status : Nat) (body : JSResult SearchData)
  deriving Repr, DecidableEq

/-- WHATWG `Response.ok`: status in the inclusive range 200-299. -/
def resOk (status : Nat) : Bool := 200 ≤ status && status ≤ 299

/-- The component state touched by `searchBooks`. -/
structure AppState where
  query : String
  author : String
  page : Int
  loading : Bool
  error : String
  docs : List Doc
  numFound : Int
  deriving Repr, DecidableEq

/-- App.jsx line 69: the single generic error message. -/
def genericErrorMsg : String := "Something went wrong. There was a network or API error."

/-- Embedding of `pageOverride || page` (App.jsx line 57): an absent or zero
override falls back to the current page. -/
def jsOrInt (o : Option Int) (d : Int) : Int :=
  match o with
  | none => d
  | some n => if n = 0 then d else n

/-- App.jsx 58-62: the query parameters set on the request URL, in order:
`title` (the trimmed title), `author` only when the trimmed author text is
non-empty, `page`, and `limit` fixed at `LIMIT`. -/
def searchParams (q authorField : String) (pageToUse : Int) : List (String × String) :=
  [("title", q)]
    ++ (if jsTrim authorField = "" then [] else [("author", jsTrim authorField)])
    ++ [("page", toString pageToUse), ("limit", toString LIMIT)]

/-- App.jsx 51-73, `searchBooks`, as a transition on `AppState` parametrised
by the fetch outcome and the `pageOverride` argument.  Returns the new state
and the parameters of the request issued (`none` when the trimmed title is
empty and the function returns before any effect).  `setLoading(true)` and
`setError("")` run before the fetch; a non-2xx status throws, joining the
network-error and body-parse-error paths in the catch block, which sets the
generic message; the finally block clears the loading flag. -/
def searchBooks (outcome : FetchOutcome) (pageOverride : Option Int) (st : AppState) :
    AppState × Option (List (String × String)) :=
  let q := jsTrim st.query
  if q = "" then (st, none)
  else
    let pageToUse := jsOrInt pageOverride st.page
    let params := searchParams q st.author pageToUse
    let stPre : AppState := { st with loading := true, error := "" }
    match outcome with
    | .networkError =>
      ({ stPre with error := genericErrorMsg, loading := false }, some params)
    | .response status body =>
      if resOk status then
        match body with
        | .thrown => ({ stPre with error := genericErrorMsg, loading := false }, some params)
        | .ok data =>
          ({ stPre with
              docs := data.docs.getD [],
              numFound := data.numFound.getD 0,
              loading := false }, some params)
      else ({ stPre with error := genericErrorMsg, loading := false }, some params)

/-- A failed search execution: the fetch rejected, the status was non-2xx,
or the body failed to parse — exactly the paths reaching the catch block. -/
def isFailure : FetchOutcome → Prop
  | .networkError => True
  | .response status body => resOk status = false ∨ body = .thrown

/-! Association-list lemmas shared by the save-set theorems. -/

theorem lookupAssoc_cons {β : Type} (k₁ : String) (v : β) (t : List (String × β)) (k : String) :
    lookupAssoc k ((k₁, v) :: t) = if k₁ = k then some v else lookupAssoc k t := rfl

theorem lookupAssoc_append {β : Type} (k : String) (s t : List (String × β)) :
    lookupAssoc k (s ++ t) =
      match lookupAssoc k s with
      | some v => some v
      | none => lookupAssoc k t := by
  induction s with
  | nil => simp [lookupAssoc]
  | cons hd tl ih =>
    obtain ⟨k₁, v⟩ := hd
    by_cases h : k₁ = k
    · simp [lookupAssoc, h]
    · simp [lookupAssoc, h, ih]

theorem lookupAssoc_eraseKey (k k' : String) (s : SaveSet) :
    lookupAssoc k' (eraseKey k s) = if k' = k then none else lookupAssoc k' s := by
  induction s with
  | nil => simp [eraseKey, lookupAssoc]
  | cons hd tl ih =>
    obtain ⟨k₁, v⟩ := hd
    by_cases h1 : k₁ = k
    · subst h1
      by_cases h2 : k' = k₁
      · subst h2
        simp [eraseKey, ih]
      · simp [eraseKey, lookupAssoc, h2, Ne.symm h2, ih]
    · by_cases h2 : k₁ = k'
      · subst h2
        have : ¬ k₁ = k := h1
        simp [eraseKey, lookupAssoc, h1, Ne.symm h1]
      · simp [eraseKey, lookupAssoc, h1, h2, ih]

theorem eraseKey_of_lookupAssoc_none (k : String) (s : SaveSet)
    (h : lookupAssoc k s = none) : eraseKey k s = s := by
  induction s with
  | nil => rfl
  | cons hd tl ih =>
    obtain ⟨k₁, v⟩ := hd
    rw [lookupAssoc_cons] at h
    by_cases h1 : k₁ = k
    · simp [h1] at h
    · simp [h1] at h
      simp [eraseKey, h1, ih h]

theorem eraseKey_append (k : String) (s t : SaveSet) :
    eraseKey k (s ++ t) = eraseKey k s ++ eraseKey k t := by
  induction s with
  | nil => rfl
  | cons hd tl ih =>
    obtain ⟨k₁, v⟩ := hd
    by_cases h : k₁ = k
    · simp [eraseKey, h, ih]
    · simp [eraseKey, h, ih]

/-! The Nat ceiling-division used by `totalPages` agrees with the ceiling of
the exact rational quotient. -/

theorem ceilDiv_twenty_eq_ceil (n : Nat) :
    (n + 19) / 20 = ⌈(n : ℚ) / 20⌉₊ := by
  apply le_antisymm
  · by_cases h : (n + 19) / 20 = 0
    · simp [h]
    · have h1 : ((n + 19) / 20 - 1) * 20 < n := by omega
      have h2 : (n + 19) / 20 - 1 < ⌈(n : ℚ) / 20⌉₊ := by
        rw [Nat.lt_ceil, lt_div_iff₀ (by norm_num : (0 : ℚ) < 20)]
        exact_mod_cast h1
      omega
  · rw [Nat.ceil_le, div_le_iff₀ (by norm_num : (0 : ℚ) < 20)]
    have h3 : n ≤ ((n + 19) / 20) * 20 := by omega
    exact_mod_cast h3

/-- C1: for every totalFound (a natural number, hence ≥ 0) and the fixed
page size LIMIT = 20, the computed total page count equals
max(1, ⌈totalFound / 20⌉); it is always ≥ 1, and for every integer p,
`gotoPage` sets the current page to p clamped into [1, totalPages], so the
requested page is never outside that interval. -/
theorem paginator_totalPages_gotoPage_clamped (numFound : Nat) (p : Int) :
    totalPages numFound = max 1 ⌈(numFound : ℚ) / (LIMIT : ℚ)⌉₊
    ∧ 1 ≤ totalPages numFound
    ∧ gotoPage p numFound = min (max 1 p) (totalPages numFound : Int)
    ∧ 1 ≤ gotoPage p numFound
    ∧ gotoPage p numFound ≤ (totalPages numFound : Int) := by
  have h1 : totalPages numFound = max 1 ⌈(numFound : ℚ) / (LIMIT : ℚ)⌉₊ := by
    rw [totalPages]
    show max 1 ((numFound + 19) / 20) = _
    rw [ceilDiv_twenty_eq_ceil]
    norm_num [LIMIT]
  have h2 : 1 ≤ totalPages numFound := le_max_left _ _
  refine ⟨h1, h2, rfl, ?_, ?_⟩ <;> (rw [gotoPage]; omega)

/-- The save key exactly as claim C2 states it: the record's canonical
identifier (`doc.key`) when present (truthy), otherwise the composite of the
document's title and first publish year. -/
def saveKeyClaimC2 (d : Doc) : String :=
  (strTruthy d.key).getD (jsTemplate d.title ++ "-" ++ yearTemplate d.first_publish_year)

/-- The save key as the amended claim C2 states it: `doc.key` when present
(truthy), otherwise `doc.cover_edition_key` when present (truthy), otherwise
the composite of the document's title and first publish year. -/
def saveKeyAmendedC2 (d : Doc) : String :=
  ((strTruthy d.key).orElse (fun _ => strTruthy d.cover_edition_key)).getD
    (jsTemplate d.title ++ "-" ++ yearTemplate d.first_publish_year)

/-- C2 counterexample: a document lacking the canonical identifier but
carrying a cover-edition key is keyed by that cover-edition key, not by the
title+year composite the claim prescribes. -/
theorem toBookKey_not_claimC2 :
    toBookKey ⟨none, some "OL777M", some "Dune", none, some 1965, none⟩ ≠
      saveKeyClaimC2 ⟨none, some "OL777M", some "Dune", none, some 1965, none⟩ := by
  decide

/-- C2 amended: the stable save key is `doc.key` when present (truthy),
otherwise `doc.cover_edition_key` when present (truthy), otherwise the
composite of title and first publish year; in particular, toggling save on a
document lacking both identifiers stores it under the title+year composite
key. -/
theorem toBookKey_amendedC2 (d : Doc) :
    toBookKey d = saveKeyAmendedC2 d
    ∧ (strTruthy d.key = none → strTruthy d.cover_edition_key = none →
        lookupAssoc (jsTemplate d.title ++ "-" ++ yearTemplate d.first_publish_year)
          (toggleSave d emptySave) = some (mkSavedEntry d)) := by
  constructor
  · rw [toBookKey, saveKeyAmendedC2]
    cases strTruthy d.key <;> cases strTruthy d.cover_edition_key <;>
      simp [Option.orElse]
  · intro hk hc
    simp [toggleSave, emptySave, lookupAssoc, toBookKey, hk, hc]

/-- Witness for the amended C2 at a document with neither identifier. -/
theorem toBookKey_amendedC2_witness :
    strTruthy (Doc.mk none none (some "Dune") none (some 1965) none).key = none
    ∧ strTruthy (Doc.mk none none (some "Dune") none (some 1965) none).cover_edition_key = none
    ∧ lookupAssoc
        (jsTemplate (Doc.mk none none (some "Dune") none (some 1965) none).title ++ "-"
          ++ yearTemplate (Doc.mk none none (some "Dune") none (some 1965) none).first_publish_year)
        (toggleSave (Doc.mk none none (some "Dune") none (some 1965) none) emptySave)
      = some (mkSavedEntry (Doc.mk none none (some "Dune") none (some 1965) none)) :=
  ⟨by decide, by decide,
    (toBookKey_amendedC2 (Doc.mk none none (some "Dune") none (some 1965) none)).2
      (by decide) (by decide)⟩

/-- C3 counterexample: starting from a save-set whose entry under key "K"
records author "Alice", double-toggling a document with key "K" but no
author names leaves an entry rebuilt with author "Unknown": the save-set is
not returned to its original state. -/
theorem toggleSave_twice_not_identity :
    lookupAssoc "K"
        (toggleSave ⟨some "K", none, some "New", none, none, none⟩
          (toggleSave ⟨some "K", none, some "New", none, none, none⟩
            [("K", ⟨"K", some "New", "Alice", none, none, some "K"⟩)])) ≠
      lookupAssoc "K" [("K", ⟨"K", some "New", "Alice", none, none, some "K"⟩)] := by
  decide

/-- C3 amended: double-toggling d preserves the key set of S and every entry
under a key other than d's key; the entry under d's key, when present, is
replaced by the entry freshly rebuilt from d.  In particular the save-set
returns to exactly its original state iff the stored entry already equals
the rebuilt one (as it does whenever it was created by toggling d), and
otherwise differs exactly there. -/
theorem toggleSave_twice_lookup (d : Doc) (S : SaveSet) (k' : String) :
    lookupAssoc k' (toggleSave d (toggleSave d S)) =
      if k' = toBookKey d then (lookupAssoc k' S).map (fun _ => mkSavedEntry d)
      else lookupAssoc k' S := by
  cases h : lookupAssoc (toBookKey d) S with
  | none =>
    have ht1 : toggleSave d S = S ++ [(toBookKey d, mkSavedEntry d)] := by
      simp [toggleSave, h]
    have hl : lookupAssoc (toBookKey d) (S ++ [(toBookKey d, mkSavedEntry d)]) =
        some (mkSavedEntry d) := by
      rw [lookupAssoc_append, h]
      simp [lookupAssoc]
    have ht2 : toggleSave d (toggleSave d S) = S := by
      rw [ht1]
      simp only [toggleSave, hl]
      rw [eraseKey_append, eraseKey_of_lookupAssoc_none _ S h]
      simp [eraseKey]
    rw [ht2]
    by_cases h2 : k' = toBookKey d
    · subst h2
      simp [h]
    · simp [h2]
  | some E =>
    have ht1 : toggleSave d S = eraseKey (toBookKey d) S := by
      simp [toggleSave, h]
    have hl : lookupAssoc (toBookKey d) (eraseKey (toBookKey d) S) = none := by
      rw [lookupAssoc_eraseKey]
      simp
    have ht2 : toggleSave d (toggleSave d S) =
        eraseKey (toBookKey d) S ++ [(toBookKey d, mkSavedEntry d)] := by
      rw [ht1]
      simp only [toggleSave, hl]
    rw [ht2, lookupAssoc_append, lookupAssoc_eraseKey]
    by_cases h2 : k' = toBookKey d
    · subst h2
      simp [lookupAssoc, h]
    · cases h3 : lookupAssoc k' S <;> simp [lookupAssoc, h2, Ne.symm h2, h3]

/-- C10: toggleSave(d) modifies at most the entry whose key is derived from
d — every entry of the save-set under any other key is unchanged. -/
theorem toggleSave_frame (d : Doc) (S : SaveSet) (k' : String)
    (h : k' ≠ toBookKey d) :
    lookupAssoc k' (toggleSave d S) = lookupAssoc k' S := by
  cases hl : lookupAssoc (toBookKey d) S with
  | none =>
    simp only [toggleSave, hl]
    rw [lookupAssoc_append]
    cases h3 : lookupAssoc k' S <;> simp [lookupAssoc, Ne.symm h, h3]
  | some E =>
    simp only [toggleSave, hl]
    rw [lookupAssoc_eraseKey]
    simp [h]

/-- Witness for C10 at a key different from the toggled doc's key. -/
theorem toggleSave_frame_witness :
    lookupAssoc "other"
        (toggleSave ⟨some "K2", none, some "T", none, none, none⟩ emptySave) =
      lookupAssoc "other" emptySave :=
  toggleSave_frame ⟨some "K2", none, some "T", none, none, none⟩ emptySave "other" (by decide)

/-- C4: for every state of the persistence slot — a read that throws, an
absent slot, an empty string, or content whose parse throws — initializing
the adapter yields the empty mapping; and in every case the initializer
yields a value (either the parsed save-set or the empty mapping), never
propagating an exception to the caller. -/
theorem useLocalStorageInit_fallback (getItem : JSResult (Option String))
    (jsonParse : String → JSResult SaveSet) :
    (getItem = .thrown → loadSaved getItem jsonParse = emptySave)
    ∧ (getItem = .ok none → loadSaved getItem jsonParse = emptySave)
    ∧ loadSaved (.ok (some "")) jsonParse = emptySave
    ∧ (∀ raw, getItem = .ok (some raw) → jsonParse raw = .thrown →
        loadSaved getItem jsonParse = emptySave)
    ∧ ((∃ raw v, getItem = .ok (some raw) ∧ raw ≠ "" ∧ jsonParse raw = .ok v
          ∧ loadSaved getItem jsonParse = v)
        ∨ loadSaved getItem jsonParse = emptySave) := by
  refine ⟨?_, ?_, ?_, ?_, ?_⟩
  · intro h
    rw [h]
    rfl
  · intro h
    rw [h]
    rfl
  · rfl
  · intro raw h hp
    rw [h]
    by_cases he : raw = ""
    · simp [loadSaved, useLocalStorageInit, he]
    · simp [loadSaved, useLocalStorageInit, he, hp]
  · match getItem with
    | .thrown => exact Or.inr rfl
    | .ok none => exact Or.inr rfl
    | .ok (some raw) =>
      by_cases he : raw = ""
      · subst he
        exact Or.inr rfl
      · match hp : jsonParse raw with
        | .thrown =>
          right
          simp [loadSaved, useLocalStorageInit, he, hp]
        | .ok v =>
          left
          exact ⟨raw, v, rfl, he, hp, by simp [loadSaved, useLocalStorageInit, he, hp]⟩

/-- Witness for C4: a slot holding unparsable content loads as the empty
mapping. -/
theorem useLocalStorageInit_fallback_witness :
    loadSaved (.ok (some "corrupt")) (fun _ => .thrown) = emptySave :=
  (useLocalStorageInit_fallback (.ok (some "corrupt")) (fun _ => .thrown)).2.2.2.1
    "corrupt" rfl rfl

/-- C9: whenever the trimmed title is empty, `searchBooks` issues no request
and performs no state change at all. -/
theorem searchBooks_empty_title_noop (outcome : FetchOutcome) (pageOverride : Option Int)
    (st : AppState) (h : jsTrim st.query = "") :
    searchBooks outcome pageOverride st = (st, none) := by
  simp [searchBooks, h]

/-- Witness for C9 at a whitespace-only title. -/
theorem searchBooks_empty_title_noop_witness :
    searchBooks FetchOutcome.networkError none
        { query := "   "
          author := "Tolkien"
          page := 3
          loading := false
          error := ""
          docs := []
          numFound := 7 } =
      ({ query := "   "
         author := "Tolkien"
         page := 3
         loading := false
         error := ""
         docs := []
         numFound := 7 }, none) :=
  searchBooks_empty_title_noop FetchOutcome.networkError none _ (by decide)

/-- C7: when the title is non-empty, every failing search execution — a
network error, a non-2xx status, or a body that fails to parse — sets the
single generic error message and leaves the previously held docs and result
count unmodified; every successful (2xx) execution replaces docs and result
count wholesale by the response fields and leaves no error message. -/
theorem searchBooks_failure_preserves_success_replaces (outcome : FetchOutcome)
    (pageOverride : Option Int) (st : AppState) (hq : jsTrim st.query ≠ "") :
    (isFailure outcome →
      (searchBooks outcome pageOverride st).1.error = genericErrorMsg
      ∧ (searchBooks outcome pageOverride st).1.docs = st.docs
      ∧ (searchBooks outcome pageOverride st).1.numFound = st.numFound)
    ∧ (∀ status data, resOk status = true →
        (searchBooks (.response status (.ok data)) pageOverride st).1.docs = data.docs.getD []
        ∧ (searchBooks (.response status (.ok data)) pageOverride st).1.numFound
            = data.numFound.getD 0
        ∧ (searchBooks (.response status (.ok data)) pageOverride st).1.error = "") := by
  constructor
  · intro hf
    match outcome with
    | .networkError => simp [searchBooks, hq]
    | .response status body =>
      match hb : body with
      | .thrown =>
        cases hs : resOk status <;> simp [searchBooks, hq, hs]
      | .ok data =>
        rcases hf with hs | habs
        · simp [searchBooks, hq, hs]
        · exact absurd habs (by simp)
  · intro status data hs
    simp [searchBooks, hq, hs]

/-- Witness for C7: a network failure on a live query keeps docs and count
and sets the generic message; a 200 response replaces them. -/
theorem searchBooks_failure_preserves_success_replaces_witness :
    ((searchBooks FetchOutcome.networkError none
        { query := "Dune"
          author := ""
          page := 2
          loading := false
          error := ""
          docs := []
          numFound := 45 }).1.error = genericErrorMsg
      ∧ (searchBooks FetchOutcome.networkError none
          { query := "Dune"
            author := ""
            page := 2
            loading := false
            error := ""
            docs := []
            numFound := 45 }).1.docs = []
      ∧ (searchBooks FetchOutcome.networkError none
          { query := "Dune"
            author := ""
            page := 2
            loading := false
            error := ""
            docs := []
            numFound := 45 }).1.numFound = 45) := by
  have h := (searchBooks_failure_preserves_success_replaces FetchOutcome.networkError none
    { query := "Dune"
      author := ""
      page := 2
      loading := false
      error := ""
      docs := []
      numFound := 45 } (by decide)).1 (by constructor)
  exact h

/-- C8: when the title is non-empty, the issued request carries exactly the
parameters title (the trimmed title), author only when the trimmed author is
non-empty, page, and limit fixed at "20"; a sort parameter is never
included. -/
theorem searchBooks_request_params (outcome : FetchOutcome) (pageOverride : Option Int)
    (st : AppState) (hq : jsTrim st.query ≠ "") :
    (searchBooks outcome pageOverride st).2 =
      some (searchParams (jsTrim st.query) st.author (jsOrInt pageOverride st.page))
    ∧ ∀ q a p,
        ((searchParams q a p).map Prod.fst =
          if jsTrim a = "" then ["title", "page", "limit"]
          else ["title", "author", "page", "limit"])
        ∧ lookupAssoc "title" (searchParams q a p) = some q
        ∧ lookupAssoc "page" (searchParams q a p) = some (toString p)
        ∧ lookupAssoc "limit" (searchParams q a p) = some "20"
        ∧ (jsTrim a = "" → "author" ∉ (searchParams q a p).map Prod.fst)
        ∧ (jsTrim a ≠ "" → lookupAssoc "author" (searchParams q a p) = some (jsTrim a))
        ∧ "sort" ∉ (searchParams q a p).map Prod.fst := by
  constructor
  · match outcome with
    | .networkError => simp [searchBooks, hq]
    | .response status body =>
      cases hs : resOk status
      · simp [searchBooks, hq, hs]
      · cases body <;> simp [searchBooks, hq, hs]
  · intro q a p
    by_cases ha : jsTrim a = "" <;>
      simp [searchParams, ha, lookupAssoc, LIMIT] <;> rfl

/-- Witness for C8, the "Dune with empty author" scenario: the request
carries title=Dune, page and limit only — no author, no sort. -/
theorem searchBooks_request_params_witness :
    (searchBooks FetchOutcome.networkError none
        { query := "Dune"
          author := ""
          page := 1
          loading := false
          error := ""
          docs := []
          numFound := 0 }).2 =
      some [("title", "Dune"), ("page", "1"), ("limit", "20")] := by
  have h := (searchBooks_request_params FetchOutcome.networkError none
    { query := "Dune"
      author := ""
      page := 1
      loading := false
      error := ""
      docs := []
      numFound := 0 } (by decide)).1
  rw [h]
  decide

/-! Sort-transform claims.  The comparator orders are embedded as the
boolean relations passed to the stable `List.mergeSort`; the hypotheses on
`lc` state that `localeCompare` induces a total preorder on strings, which
the external primitive guarantees. -/

theorem yearDescBool_trans (a b c : Doc)
    (h1 : decide (yearKey b - yearKey a ≤ 0) = true)
    (h2 : decide (yearKey c - yearKey b ≤ 0) = true) :
    decide (yearKey c - yearKey a ≤ 0) = true := by
  simp only [decide_eq_true_eq] at *
  omega

theorem yearDescBool_total (a b : Doc) :
    (decide (yearKey b - yearKey a ≤ 0) || decide (yearKey a - yearKey b ≤ 0)) = true := by
  simp only [Bool.or_eq_true, decide_eq_true_eq]
  omega

theorem yearAscBool_trans (a b c : Doc)
    (h1 : decide (yearKey a - yearKey b ≤ 0) = true)
    (h2 : decide (yearKey b - yearKey c ≤ 0) = true) :
    decide (yearKey a - yearKey c ≤ 0) = true := by
  simp only [decide_eq_true_eq] at *
  omega

theorem yearAscBool_total (a b : Doc) :
    (decide (yearKey a - yearKey b ≤ 0) || decide (yearKey b - yearKey a ≤ 0)) = true := by
  simp only [Bool.or_eq_true, decide_eq_true_eq]
  omega

/-- C5: relevance returns the list in its original order; year_desc /
year_asc return a permutation ordered by first-publish-year (missing year
as 0, embedded in `yearKey`) descending resp. ascending; title_asc returns
a permutation ordered by the locale comparison of titles (missing title as
"", embedded in `titleKey`). -/
theorem sortedDocs_orders (lc : String → String → Int) (docs : List Doc)
    (htot : ∀ a b, lc a b ≤ 0 ∨ lc b a ≤ 0)
    (htrans : ∀ a b c, lc a b ≤ 0 → lc b c ≤ 0 → lc a c ≤ 0) :
    sortedDocs lc .relevance docs = docs
    ∧ (List.Perm (sortedDocs lc .year_desc docs) docs
        ∧ (sortedDocs lc .year_desc docs).Pairwise (fun a b => yearKey b ≤ yearKey a))
    ∧ (List.Perm (sortedDocs lc .year_asc docs) docs
        ∧ (sortedDocs lc .year_asc docs).Pairwise (fun a b => yearKey a ≤ yearKey b))
    ∧ (List.Perm (sortedDocs lc .title_asc docs) docs
        ∧ (sortedDocs lc .title_asc docs).Pairwise
            (fun a b => lc (titleKey a) (titleKey b) ≤ 0)) := by
  refine ⟨rfl, ⟨List.mergeSort_perm docs _, ?_⟩, ⟨List.mergeSort_perm docs _, ?_⟩,
    ⟨List.mergeSort_perm docs _, ?_⟩⟩
  · have h := List.sorted_mergeSort yearDescBool_trans yearDescBool_total docs
    exact h.imp (fun hab => by
      have := of_decide_eq_true hab
      omega)
  · have h := List.sorted_mergeSort yearAscBool_trans yearAscBool_total docs
    exact h.imp (fun hab => by
      have := of_decide_eq_true hab
      omega)
  · have htransb : ∀ a b c : Doc, decide (lc (titleKey a) (titleKey b) ≤ 0) = true →
        decide (lc (titleKey b) (titleKey c) ≤ 0) = true →
        decide (lc (titleKey a) (titleKey c) ≤ 0) = true := by
      intro a b c h1 h2
      simp only [decide_eq_true_eq] at *
      exact htrans _ _ _ h1 h2
    have htotb : ∀ a b : Doc, (decide (lc (titleKey a) (titleKey b) ≤ 0)
        || decide (lc (titleKey b) (titleKey a) ≤ 0)) = true := by
      intro a b
      simp only [Bool.or_eq_true, decide_eq_true_eq]
      exact htot _ _
    have h := List.sorted_mergeSort htransb htotb docs
    exact h.imp (fun hab => of_decide_eq_true hab)

/-- Comparator standing in for `localeCompare` in the witnesses: the
everywhere-equal comparison, trivially total and transitive. -/
def lcZero : String → String → Int := fun _ _ => 0

/-- Concrete documents for the sort witnesses. -/
def docA : Doc := ⟨some "A", none, some "Alpha", none, some 2001, none⟩

/-- Concrete documents for the sort witnesses. -/
def docB : Doc := ⟨some "B", none, some "Beta", none, some 1990, none⟩

/-- Witness for C5 at a concrete comparator and document list. -/
theorem sortedDocs_orders_witness :
    sortedDocs lcZero SortOrder.relevance [docA, docB] = [docA, docB]
    ∧ (List.Perm (sortedDocs lcZero SortOrder.year_desc [docA, docB]) [docA, docB]
        ∧ (sortedDocs lcZero SortOrder.year_desc [docA, docB]).Pairwise
            (fun a b => yearKey b ≤ yearKey a))
    ∧ (List.Perm (sortedDocs lcZero SortOrder.year_asc [docA, docB]) [docA, docB]
        ∧ (sortedDocs lcZero SortOrder.year_asc [docA, docB]).Pairwise
            (fun a b => yearKey a ≤ yearKey b))
    ∧ (List.Perm (sortedDocs lcZero SortOrder.title_asc [docA, docB]) [docA, docB]
        ∧ (sortedDocs lcZero SortOrder.title_asc [docA, docB]).Pairwise
            (fun a b => lcZero (titleKey a) (titleKey b) ≤ 0)) :=
  sortedDocs_orders lcZero [docA, docB]
    (fun _ _ => Or.inl (le_refl 0)) (fun _ _ _ _ _ => le_refl 0)

/-- C6: for every sort selection the transform is idempotent — sorting its
own output changes nothing — and its output is a permutation of the input
(the pure embedding cannot mutate the input list, so non-mutation is the
permutation statement). -/
theorem sortedDocs_idem_perm (lc : String → String → Int) (sort : SortOrder)
    (docs : List Doc)
    (htot : ∀ a b, lc a b ≤ 0 ∨ lc b a ≤ 0)
    (htrans : ∀ a b c, lc a b ≤ 0 → lc b c ≤ 0 → lc a c ≤ 0) :
    sortedDocs lc sort (sortedDocs lc sort docs) = sortedDocs lc sort docs
    ∧ List.Perm (sortedDocs lc sort docs) docs := by
  cases sort with
  | relevance => exact ⟨rfl, List.Perm.refl docs⟩
  | year_desc =>
    exact ⟨List.mergeSort_of_sorted
        (List.sorted_mergeSort yearDescBool_trans yearDescBool_total docs),
      List.mergeSort_perm docs _⟩
  | year_asc =>
    exact ⟨List.mergeSort_of_sorted
        (List.sorted_mergeSort yearAscBool_trans yearAscBool_total docs),
      List.mergeSort_perm docs _⟩
  | title_asc =>
    have htransb : ∀ a b c : Doc, decide (lc (titleKey a) (titleKey b) ≤ 0) = true →
        decide (lc (titleKey b) (titleKey c) ≤ 0) = true →
        decide (lc (titleKey a) (titleKey c) ≤ 0) = true := by
      intro a b c h1 h2
      simp only [decide_eq_true_eq] at *
      exact htrans _ _ _ h1 h2
    have htotb : ∀ a b : Doc, (decide (lc (titleKey a) (titleKey b) ≤ 0)
        || decide (lc (titleKey b) (titleKey a) ≤ 0)) = true := by
      intro a b
      simp only [Bool.or_eq_true, decide_eq_true_eq]
      exact htot _ _
    exact ⟨List.mergeSort_of_sorted (List.sorted_mergeSort htransb htotb docs),
      List.mergeSort_perm docs _⟩

/-- Witness for C6 at a concrete comparator, sort selection and list. -/
theorem sortedDocs_idem_perm_witness :
    sortedDocs lcZero SortOrder.year_desc
        (sortedDocs lcZero SortOrder.year_desc [docA, docB])
      = sortedDocs lcZero SortOrder.year_desc [docA, docB]
    ∧ List.Perm (sortedDocs lcZero SortOrder.year_desc [docA, docB]) [docA, docB] :=
  sortedDocs_idem_perm lcZero SortOrder.year_desc [docA, docB]
    (fun _ _ => Or.inl (le_refl 0)) (fun _ _ _ _ _ => le_refl 0)

end BookFinder
